import Mathlib

/-!
Verification of the record store of the Library-Inventory-system repository.

The store (src/backend.py) keeps a Collection — a Python dict mapping a string
id to a media record with four string fields — persisted as JSON in the file
media.json.  Every endpoint re-reads the file, possibly mutates the mapping,
and (for mutations) writes the whole mapping back.

The embedding passes the durable state explicitly: each endpoint is a function
from the current durable file (and its arguments) to a triple of the HTTP
response, the durable file afterwards, and a flag recording whether save_media
was called.  The Python dict is embedded as an association list with dict
semantics (unique keys; assignment replaces in place or appends; del removes
the key).  json.dump followed by json.load is the json library round-trip
contract, so the file is modelled by the Collection it serializes, with `none`
standing for an absent media.json.
-/

namespace LibraryInventory

/-- Python str.lower(): lowercase the string character by character. -/
def pyLower (s : String) : String :=
  ⟨s.data.map Char.toLower⟩

/-- One media record: the four string fields stored per item by
src/backend.py create_media (lines 89-94). -/
structure Record where
  name : String
  author : String
  publication_date : String
  category : String
deriving Repr, DecidableEq

/-- The Collection: a Python dict from id to Record, as an association list. -/
abbrev Media := List (String × Record)

/-- Python `item_id in media` (dict key membership). -/
def containsKey (media : Media) (k : String) : Bool :=
  media.any (fun kv => kv.1 == k)

/-- Python `media[item_id]` (dict lookup; on an association list with unique
keys this is the first — and only — entry with the key). -/
def lookupKey (media : Media) (k : String) : Option Record :=
  (media.find? (fun kv => kv.1 == k)).map (fun kv => kv.2)

/-- Python `media[item_id] = rec`: a dict assignment replaces the value in
place when the key is present and appends a new entry otherwise. -/
def insertKey (media : Media) (k : String) (r : Record) : Media :=
  if containsKey media k then
    media.map (fun kv => if kv.1 == k then (k, r) else kv)
  else
    media ++ [(k, r)]

/-- Python `del media[item_id]`: removes the entry for the key. -/
def eraseKey (media : Media) (k : String) : Media :=
  media.filter (fun kv => kv.1 != k)

/-- The keys of the Collection. -/
def mediaKeys (media : Media) : List String :=
  media.map (fun kv => kv.1)

/-- Durable storage: media.json is absent (`none`) or holds the JSON
serialization of a Collection; by the round-trip contract of the json library the
file content is modelled by the Collection it serializes. -/
abbrev DataFile := Option Media

/-- src/backend.py load_media (lines 14-20): empty Collection when the file
does not exist, otherwise the stored mapping. -/
def load_media (file : DataFile) : Media :=
  match file with
  | none => []
  | some m => m

/-- src/backend.py save_media (lines 23-26): overwrite the file with the whole
Collection. -/
def save_media (m : Media) : DataFile :=
  some m

/-- The JSON-plus-status responses of the six endpoints of src/backend.py. -/
inductive Resp where
  /-- jsonify(load_media()) — status 200. -/
  | allMedia (m : Media)
  /-- jsonify(filtered) — status 200. -/
  | filtered (m : Media)
  /-- jsonify(\x7bkey: value\x7d) from search_media — status 200. -/
  | found (k : String) (r : Record)
  /-- jsonify(media[item_id]) from get_media_details — status 200. -/
  | details (r : Record)
  /-- jsonify(message, id) from create_media — status 201. -/
  | created (id : String)
  /-- jsonify(message) from delete_media — status 200. -/
  | deleted
  /-- jsonify(error), status 404. -/
  | errorNotFound
  /-- jsonify(error "Missing field: ..."), status 400. -/
  | errorMissing (field : String)
deriving Repr, DecidableEq

/-- An endpoint outcome: response, durable file afterwards, and whether
save_media was called. -/
abbrev Outcome := Resp × DataFile × Bool

/-- src/backend.py get_all_media (lines 37-40). -/
def get_all_media (file : DataFile) : Outcome :=
  (Resp.allMedia (load_media file), file, false)

/-- The dict comprehension of src/backend.py get_media_by_category
(lines 47-51): keep the entries whose category matches case-insensitively. -/
def categoryFilter (media : Media) (category : String) : Media :=
  media.filter (fun kv => pyLower kv.2.category == pyLower category)

/-- src/backend.py get_media_by_category (lines 43-52). -/
def get_media_by_category (file : DataFile) (category : String) : Outcome :=
  (Resp.filtered (categoryFilter (load_media file) category), file, false)

/-- src/backend.py search_media (lines 55-62): return the first entry whose
name matches case-insensitively, else a 404 error. -/
def search_media (file : DataFile) (name : String) : Outcome :=
  match (load_media file).find? (fun kv => pyLower kv.2.name == pyLower name) with
  | some kv => (Resp.found kv.1 kv.2, file, false)
  | none => (Resp.errorNotFound, file, false)

/-- src/backend.py get_media_details (lines 65-71): `if item_id in media:
return media[item_id]`, else a 404 error — one association-list lookup. -/
def get_media_details (file : DataFile) (item_id : String) : Outcome :=
  match lookupKey (load_media file) item_id with
  | some r => (Resp.details r, file, false)
  | none => (Resp.errorNotFound, file, false)

/-- A create request body: each of the four required fields is present
(`some`) or absent (`none`) — Python `field not in data` tests presence. -/
structure ReqData where
  name : Option String
  author : Option String
  publication_date : Option String
  category : Option String
deriving Repr, DecidableEq

/-- src/backend.py create_media (lines 74-98), with the uuid4() draw passed in
explicitly as item_id.  The required_fields loop returns a 400 error naming the
first absent field, in the order name, author, publication_date, category;
present fields are stored verbatim, with no emptiness check. -/
def create_media (file : DataFile) (data : ReqData) (item_id : String) : Outcome :=
  match data.name with
  | none => (Resp.errorMissing "name", file, false)
  | some nm =>
    match data.author with
    | none => (Resp.errorMissing "author", file, false)
    | some au =>
      match data.publication_date with
      | none => (Resp.errorMissing "publication_date", file, false)
      | some pd =>
        match data.category with
        | none => (Resp.errorMissing "category", file, false)
        | some cat =>
          let media' := insertKey (load_media file) item_id ⟨nm, au, pd, cat⟩
          (Resp.created item_id, save_media media', true)

/-- src/backend.py delete_media (lines 101-111): 404 when the id is absent,
otherwise delete the entry and persist. -/
def delete_media (file : DataFile) (item_id : String) : Outcome :=
  let media := load_media file
  if containsKey media item_id then
    (Resp.deleted, save_media (eraseKey media item_id), true)
  else
    (Resp.errorNotFound, file, false)

/-!
The second store variant, src/mock_backend.py: an in-memory list of items plus
a `_next_id` counter.  Only its mutating operations matter to the claims.
-/

/-- One item of the `_media` list of src/mock_backend.py: a Python int id plus the
payload fields, which `payload.get(...)` leaves as None when absent. -/
structure MockItem where
  id : Nat
  name : String
  author : Option String
  publication_date : Option String
  category : Option String
deriving Repr, DecidableEq

/-- The module state of src/mock_backend.py: the `_media` list and the
`_next_id` counter. -/
structure MockState where
  media : List MockItem
  next_id : Nat
deriving Repr, DecidableEq

/-- The initial `_media` list of src/mock_backend.py (lines 7-11). -/
def mockInitMedia : List MockItem :=
  [⟨1, "The Hobbit", some "J.R.R. Tolkien", some "1937", some "Book"⟩,
   ⟨2, "Inception", some "Christopher Nolan", some "2010", some "Film"⟩,
   ⟨3, "National Geographic", some "Various", some "2020-06", some "Magazine"⟩]

/-- The initial module state of src/mock_backend.py: `_media` as above and
`_next_id = 4` (line 12). -/
def mockInit : MockState :=
  ⟨mockInitMedia, 4⟩

/-- A create payload for src/mock_backend.py (payload.get on each field). -/
structure MockPayload where
  name : Option String
  author : Option String
  publication_date : Option String
  category : Option String
deriving Repr, DecidableEq

/-- Responses of the mutating endpoints of src/mock_backend.py. -/
inductive MockResp where
  /-- jsonify(item) — status 200. -/
  | created (item : MockItem)
  /-- jsonify(deleted) — status 200. -/
  | deleted (id : Nat)
  /-- jsonify(error "name required") — status 400. -/
  | errorNameRequired
  /-- jsonify(error "not found") — status 404. -/
  | errorNotFound
deriving Repr, DecidableEq

/-- src/mock_backend.py create (lines 34-50): `if not name` rejects an absent
name and the empty string; otherwise append an item carrying `_next_id` and
increment the counter. -/
def mockCreate (s : MockState) (payload : MockPayload) : MockResp × MockState :=
  match payload.name with
  | none => (MockResp.errorNameRequired, s)
  | some nm =>
    if nm = "" then (MockResp.errorNameRequired, s)
    else
      let item : MockItem :=
        ⟨s.next_id, nm, payload.author, payload.publication_date, payload.category⟩
      (MockResp.created item, ⟨s.media ++ [item], s.next_id + 1⟩)

/-- src/mock_backend.py delete (lines 53-60): keep the items whose id differs;
404 when the length did not change. -/
def mockDelete (s : MockState) (item_id : Nat) : MockResp × MockState :=
  let media' := s.media.filter (fun m => m.id != item_id)
  if media'.length = s.media.length then (MockResp.errorNotFound, s)
  else (MockResp.deleted item_id, ⟨media', s.next_id⟩)

/-- A mutating operation against src/mock_backend.py. -/
inductive MockOp where
  | create (payload : MockPayload)
  | delete (item_id : Nat)
deriving Repr, DecidableEq

/-- The state after one operation of src/mock_backend.py. -/
def mockStep (s : MockState) : MockOp → MockState
  | MockOp.create p => (mockCreate s p).2
  | MockOp.delete i => (mockDelete s i).2

/-- The state after a sequence of operations of src/mock_backend.py. -/
def mockRun (s : MockState) : List MockOp → MockState
  | [] => s
  | op :: ops => mockRun (mockStep s op) ops

/-- The live ids of the list store of src/mock_backend.py. -/
def mockIds (s : MockState) : List Nat :=
  s.media.map MockItem.id

/-- The store invariant of src/mock_backend.py: live ids are distinct and the
counter lies strictly above every live id. -/
def MockInv (s : MockState) : Prop :=
  (mockIds s).Nodup ∧ ∀ i ∈ mockIds s, i < s.next_id

instance : DecidablePred MockInv := fun s => by
  unfold MockInv; infer_instance

/-!
Helper lemmas about the dict operations.
-/

/-- A key is absent from the dict iff no entry carries it. -/
theorem containsKey_eq_false_iff (media : Media) (k : String) :
    containsKey media k = false ↔ ∀ kv ∈ media, kv.1 ≠ k := by
  simp [containsKey]

/-- A key is present in the dict iff some entry carries it. -/
theorem containsKey_eq_true_iff (media : Media) (k : String) :
    containsKey media k = true ↔ ∃ kv ∈ media, kv.1 = k := by
  simp [containsKey]

/-- Replacing the value stored at a present key in place makes the first
entry found for that key the replaced one. -/
theorem find?_map_replace (k : String) (r : Record) :
    ∀ l : Media, containsKey l k = true →
      (l.map (fun kv => if kv.1 == k then (k, r) else kv)).find?
        (fun kv => kv.1 == k) = some (k, r) := by
  intro l
  induction l with
  | nil => intro hc; simp [containsKey] at hc
  | cons kv t ih =>
    intro hc
    cases hk : (kv.1 == k) with
    | true =>
      rw [List.map_cons, if_pos hk, List.find?_cons_of_pos]
      simp
    | false =>
      have ht : containsKey t k = true := by
        simp only [containsKey, List.any_cons, hk, Bool.false_or] at hc
        exact hc
      rw [List.map_cons, if_neg (by simp [hk]), List.find?_cons_of_neg _ (by simp [hk])]
      exact ih ht

/-- Appending an entry for an absent key makes it the first entry found. -/
theorem find?_append_fresh (k : String) (r : Record) :
    ∀ l : Media, containsKey l k = false →
      (l ++ [(k, r)]).find? (fun kv => kv.1 == k) = some (k, r) := by
  intro l
  induction l with
  | nil =>
    intro _
    rw [List.nil_append, List.find?_cons_of_pos]
    simp
  | cons kv t ih =>
    intro hc
    simp only [containsKey, List.any_cons, Bool.or_eq_false_iff] at hc
    rw [List.cons_append, List.find?_cons_of_neg _ (by simp [hc.1])]
    exact ih (by simp [containsKey, hc.2])

/-- Looking up a key right after assigning to it returns the assigned value. -/
theorem lookupKey_insertKey_self (media : Media) (k : String) (r : Record) :
    lookupKey (insertKey media k r) k = some r := by
  unfold insertKey lookupKey
  by_cases h : containsKey media k
  · rw [if_pos h, find?_map_replace k r media h]
    rfl
  · rw [if_neg h, find?_append_fresh k r media (Bool.eq_false_iff.2 h)]
    rfl

/-- The entry just assigned is in the dict. -/
theorem mem_insertKey_self (media : Media) (k : String) (r : Record) :
    (k, r) ∈ insertKey media k r := by
  unfold insertKey
  by_cases h : containsKey media k
  · simp only [h, if_true]
    obtain ⟨kv, hkv, hk⟩ := (containsKey_eq_true_iff media k).1 h
    refine List.mem_map.2 ⟨kv, hkv, ?_⟩
    simp [hk]
  · simp [h]

/-- After deleting a key it is no longer present. -/
theorem containsKey_eraseKey_self (media : Media) (k : String) :
    containsKey (eraseKey media k) k = false := by
  rw [containsKey_eq_false_iff]
  intro kv hkv
  have := List.of_mem_filter hkv
  simpa using this

/-- Looking up a key right after deleting it yields nothing. -/
theorem lookupKey_eraseKey_self (media : Media) (k : String) :
    lookupKey (eraseKey media k) k = none := by
  unfold lookupKey
  rw [List.find?_eq_none.2]
  · rfl
  · intro kv hkv
    have := List.of_mem_filter hkv
    simpa using this

/-- No entry of the dict carries a deleted key. -/
theorem not_mem_eraseKey_self (media : Media) (k : String) (kv : String × Record)
    (h : kv ∈ eraseKey media k) : kv.1 ≠ k := by
  have := List.of_mem_filter h
  simpa using this

/-- Assigning a fresh key keeps the keys distinct. -/
theorem mediaKeys_insertKey_nodup (media : Media) (k : String) (r : Record)
    (hfresh : containsKey media k = false) (hnd : (mediaKeys media).Nodup) :
    (mediaKeys (insertKey media k r)).Nodup := by
  unfold insertKey
  rw [if_neg (by simp [hfresh])]
  have hkeys : mediaKeys (media ++ [(k, r)]) = mediaKeys media ++ [k] := by
    simp [mediaKeys]
  rw [hkeys, List.nodup_append]
  refine ⟨hnd, List.nodup_singleton k, ?_⟩
  intro a ha hb
  simp only [List.mem_singleton] at hb
  subst hb
  obtain ⟨kv, hkv, hk⟩ := List.mem_map.1 ha
  exact (containsKey_eq_false_iff media a).1 hfresh kv hkv hk

/-- One operation of src/mock_backend.py preserves the store invariant. -/
theorem mockInv_mockStep (s : MockState) (h : MockInv s) (op : MockOp) :
    MockInv (mockStep s op) := by
  obtain ⟨hnd, hlt⟩ := h
  cases op with
  | create p =>
    show MockInv (mockCreate s p).2
    unfold mockCreate
    cases hn : p.name with
    | none => exact ⟨hnd, hlt⟩
    | some nm =>
      by_cases he : nm = ""
      · simp only [he, if_pos rfl]
        exact ⟨hnd, hlt⟩
      · simp only [if_neg he]
        constructor
        · have hids : mockIds ⟨s.media ++ [⟨s.next_id, nm, p.author, p.publication_date,
              p.category⟩], s.next_id + 1⟩ = mockIds s ++ [s.next_id] := by
            simp [mockIds]
          rw [hids, List.nodup_append]
          refine ⟨hnd, List.nodup_singleton _, ?_⟩
          intro a ha hb
          simp only [List.mem_singleton] at hb
          subst hb
          exact absurd (hlt _ ha) (lt_irrefl _)
        · intro i hi
          simp only [mockIds, List.map_append, List.mem_append, List.map_cons,
            List.map_nil, List.mem_singleton] at hi
          cases hi with
          | inl hi => exact Nat.lt_succ_of_lt (hlt i hi)
          | inr hi => simp [hi]
  | delete item_id =>
    show MockInv (mockDelete s item_id).2
    unfold mockDelete
    by_cases hlen : (s.media.filter (fun m => m.id != item_id)).length = s.media.length
    · simp only [if_pos hlen]
      exact ⟨hnd, hlt⟩
    · simp only [if_neg hlen]
      have hsub : List.Sublist ((s.media.filter (fun m => m.id != item_id)).map MockItem.id)
          (s.media.map MockItem.id) :=
        List.Sublist.map MockItem.id (List.filter_sublist s.media)
      constructor
      · exact List.Nodup.sublist hsub hnd
      · intro i hi
        exact hlt i (hsub.subset hi)

/-- Any sequence of operations of src/mock_backend.py preserves the store
invariant. -/
theorem mockInv_mockRun (ops : List MockOp) (s : MockState) (h : MockInv s) :
    MockInv (mockRun s ops) := by
  induction ops generalizing s with
  | nil => exact h
  | cons op ops ih => exact ih (mockStep s op) (mockInv_mockStep s h op)

/-- Under the invariant, the counter — hence the next assigned id — is not a
live id. -/
theorem next_id_fresh (s : MockState) (h : MockInv s) :
    s.next_id ∉ mockIds s := by
  intro hmem
  exact absurd (h.2 s.next_id hmem) (lt_irrefl _)

/-!
The claims.
-/

/-- C1, counterexample: src/backend.py create_media accepts a create request
whose name field is present but equal to the empty string — on an absent
media.json it answers status 201 with the new id and writes a one-entry
Collection, so the empty name is not rejected and the Collection is altered. -/
theorem create_accepts_empty_name :
    create_media none ⟨some "", some "A", some "2020", some "Book"⟩ "id1" =
      (Resp.created "id1", some [("id1", ⟨"", "A", "2020", "Book"⟩)], true) := by
  rfl

/-- C1 (amended): create fails with a 400 ValidationError if and only if some
required field is absent from the request body, and then the Collection and
durable storage are left unchanged — the error names the field create_media
checks first among the absent ones, in its fixed order name, author,
publication_date, category; when all four fields are present (even with empty
values, in particular an empty name) it succeeds with status 201. -/
theorem create_validation_missing_fields (file : DataFile) (data : ReqData)
    (item_id : String) :
    (data.name = none →
      create_media file data item_id = (Resp.errorMissing "name", file, false)) ∧
    (data.name ≠ none → data.author = none →
      create_media file data item_id = (Resp.errorMissing "author", file, false)) ∧
    (data.name ≠ none → data.author ≠ none → data.publication_date = none →
      create_media file data item_id =
        (Resp.errorMissing "publication_date", file, false)) ∧
    (data.name ≠ none → data.author ≠ none → data.publication_date ≠ none →
      data.category = none →
      create_media file data item_id = (Resp.errorMissing "category", file, false)) ∧
    ((∃ f, (create_media file data item_id).1 = Resp.errorMissing f) ↔
      (data.name = none ∨ data.author = none ∨ data.publication_date = none ∨
        data.category = none)) ∧
    (data.name ≠ none → data.author ≠ none → data.publication_date ≠ none →
      data.category ≠ none →
      (create_media file data item_id).1 = Resp.created item_id) := by
  obtain ⟨name, author, pd, cat⟩ := data
  refine ⟨?_, ?_, ?_, ?_, ⟨?_, ?_⟩, ?_⟩
  · intro h1
    cases h1
    rfl
  · intro h1 h2
    cases h2
    cases name with
    | none => exact absurd rfl h1
    | some nm => rfl
  · intro h1 h2 h3
    cases h3
    cases name with
    | none => exact absurd rfl h1
    | some nm =>
      cases author with
      | none => exact absurd rfl h2
      | some au => rfl
  · intro h1 h2 h3 h4
    cases h4
    cases name with
    | none => exact absurd rfl h1
    | some nm =>
      cases author with
      | none => exact absurd rfl h2
      | some au =>
        cases pd with
        | none => exact absurd rfl h3
        | some p => rfl
  · rintro ⟨f, hf⟩
    cases name with
    | none => exact Or.inl rfl
    | some nm =>
      cases author with
      | none => exact Or.inr (Or.inl rfl)
      | some au =>
        cases pd with
        | none => exact Or.inr (Or.inr (Or.inl rfl))
        | some p =>
          cases cat with
          | none => exact Or.inr (Or.inr (Or.inr rfl))
          | some c => cases hf
  · intro h
    cases name with
    | none => exact ⟨"name", rfl⟩
    | some nm =>
      cases author with
      | none => exact ⟨"author", rfl⟩
      | some au =>
        cases pd with
        | none => exact ⟨"publication_date", rfl⟩
        | some p =>
          cases cat with
          | none => exact ⟨"category", rfl⟩
          | some c =>
            rcases h with h | h | h | h <;> cases h
  · intro h1 h2 h3 h4
    cases name with
    | none => exact absurd rfl h1
    | some nm =>
      cases author with
      | none => exact absurd rfl h2
      | some au =>
        cases pd with
        | none => exact absurd rfl h3
        | some p =>
          cases cat with
          | none => exact absurd rfl h4
          | some c => rfl

/-- C1, witness for the amended theorem: a request missing only the name field
is rejected with the 400 error naming that field, and neither the file nor
the written flag changes. -/
theorem create_validation_missing_fields_witness :
    create_media none ⟨none, some "A", some "2020", some "Book"⟩ "id1" =
      (Resp.errorMissing "name", none, false) :=
  (create_validation_missing_fields none ⟨none, some "A", some "2020", some "Book"⟩
    "id1").1 rfl

/-- C9: when media.json is absent, and when it holds the serialization of the
empty Collection, load_media yields the empty Collection and get_all_media
answers the empty mapping with status 200 — no error outcome. -/
theorem startup_empty_storage :
    load_media none = [] ∧
    load_media (save_media []) = [] ∧
    get_all_media none = (Resp.allMedia [], none, false) ∧
    get_all_media (save_media []) = (Resp.allMedia [], save_media [], false) :=
  ⟨rfl, rfl, rfl, rfl⟩

/-- C10: the four read endpoints of src/backend.py return the durable file
unchanged and never call save_media. -/
theorem read_operations_frame (file : DataFile) (c q i : String) :
    (get_all_media file).2 = (file, false) ∧
    (get_media_by_category file c).2 = (file, false) ∧
    (search_media file q).2 = (file, false) ∧
    (get_media_details file i).2 = (file, false) := by
  refine ⟨rfl, rfl, ?_, ?_⟩
  · unfold search_media
    cases (load_media file).find? (fun kv => pyLower kv.2.name == pyLower q) with
    | none => rfl
    | some kv => rfl
  · unfold get_media_details
    cases lookupKey (load_media file) i with
    | none => rfl
    | some r => rfl

/-- A successful create of src/mock_backend.py returns the item carrying the
current counter as its id and appends it, incrementing the counter. -/
theorem mockCreate_created (s : MockState) (p : MockPayload) (item : MockItem)
    (s2 : MockState) (hc : mockCreate s p = (MockResp.created item, s2)) :
    item.id = s.next_id ∧ s2 = ⟨s.media ++ [item], s.next_id + 1⟩ := by
  unfold mockCreate at hc
  split at hc
  · cases hc
  · split at hc
    · cases hc
    · injection hc with h1 h2
      injection h1 with h1
      subst h1
      exact ⟨rfl, h2.symm⟩

/-- C2: from any store state satisfying the invariant of src/mock_backend.py
(live ids distinct and below the counter — which the initial state satisfies
and every operation preserves), after any sequence of create and delete
operations the live ids are still distinct, and a successful create assigns an
id different from every live id; likewise in src/backend.py a create whose
uuid does not collide with an existing key keeps the dict keys distinct. -/
theorem create_delete_id_uniqueness (s : MockState) (h : MockInv s)
    (ops : List MockOp) :
    (mockIds (mockRun s ops)).Nodup ∧
    (∀ p item s2, mockCreate (mockRun s ops) p = (MockResp.created item, s2) →
      item.id ∉ mockIds (mockRun s ops) ∧ (mockIds s2).Nodup) ∧
    (∀ (media : Media) (k : String) (r : Record), containsKey media k = false →
      (mediaKeys media).Nodup → (mediaKeys (insertKey media k r)).Nodup) := by
  have hrun : MockInv (mockRun s ops) := mockInv_mockRun ops s h
  refine ⟨hrun.1, ?_, ?_⟩
  · intro p item s2 hc
    have hfresh := next_id_fresh (mockRun s ops) hrun
    obtain ⟨hid, hs2⟩ := mockCreate_created (mockRun s ops) p item s2 hc
    constructor
    · rw [hid]; exact hfresh
    · have hstep : MockInv (mockStep (mockRun s ops) (MockOp.create p)) :=
        mockInv_mockStep (mockRun s ops) hrun (MockOp.create p)
      have hst : mockStep (mockRun s ops) (MockOp.create p) = s2 := by
        show (mockCreate (mockRun s ops) p).2 = s2
        rw [hc]
      rw [hst] at hstep
      exact hstep.1
  · intro media k r hf hnd
    exact mediaKeys_insertKey_nodup media k r hf hnd

/-- C2, witness: from the initial state of src/mock_backend.py, after a create
and a delete the live ids are distinct. -/
theorem create_delete_id_uniqueness_witness :
    (mockIds (mockRun mockInit
      [MockOp.create ⟨some "Dune", some "Frank Herbert", some "1965", some "Book"⟩,
       MockOp.delete 2])).Nodup :=
  (create_delete_id_uniqueness mockInit (by decide)
    [MockOp.create ⟨some "Dune", some "Frank Herbert", some "1965", some "Book"⟩,
     MockOp.delete 2]).1

/-- C3: under the exact-match policy of src/backend.py search_media, the
response is either a single found record or a 404 — never more than one
record; a found record is an entry of the Collection whose name matches the
query case-insensitively; and the 404 outcome occurs exactly when the name of no entry
matches. -/
theorem search_exact_match (file : DataFile) (q : String) :
    ((search_media file q).1 = Resp.errorNotFound ∨
      ∃ k r, (search_media file q).1 = Resp.found k r) ∧
    (∀ k r, (search_media file q).1 = Resp.found k r →
      (k, r) ∈ load_media file ∧ pyLower r.name = pyLower q) ∧
    ((search_media file q).1 = Resp.errorNotFound ↔
      ∀ kv ∈ load_media file, pyLower kv.2.name ≠ pyLower q) := by
  unfold search_media
  cases hfind : (load_media file).find? (fun kv => pyLower kv.2.name == pyLower q) with
  | some kv =>
    refine ⟨Or.inr ⟨kv.1, kv.2, rfl⟩, ?_, ?_⟩
    · intro k r heq
      obtain ⟨hk, hr⟩ := Resp.found.injEq .. ▸ heq
      subst hk; subst hr
      refine ⟨List.mem_of_find?_eq_some hfind, ?_⟩
      have := List.find?_some hfind
      simpa using this
    · constructor
      · intro heq; cases heq
      · intro hall
        have hmem := List.mem_of_find?_eq_some hfind
        have hprop := List.find?_some hfind
        exact absurd (by simpa using hprop) (hall kv hmem)
  | none =>
    refine ⟨Or.inl rfl, ?_, ?_⟩
    · intro k r heq; cases heq
    · constructor
      · intro _ kv hkv
        have := List.find?_eq_none.1 hfind kv hkv
        simpa using this
      · intro _; rfl

/-- C3, witness: searching "dune" in a one-record Collection named "Dune"
yields that entry, whose name matches the query case-insensitively. -/
theorem search_exact_match_witness :
    ("k1", (⟨"Dune", "Frank Herbert", "1965", "Book"⟩ : Record)) ∈
      load_media (some [("k1", ⟨"Dune", "Frank Herbert", "1965", "Book"⟩)]) ∧
    pyLower "Dune" = pyLower "dune" :=
  (search_exact_match (some [("k1", ⟨"Dune", "Frank Herbert", "1965", "Book"⟩)])
    "dune").2.1 "k1" ⟨"Dune", "Frank Herbert", "1965", "Book"⟩ (by decide)

/-- C4: get_media_by_category answers status 200 with exactly the entries
whose category equals the argument after lowering both sides — an entry is in
the result iff it is in the Collection and its category matches — and when the category of
no entry matches the result is the empty mapping, not an error. -/
theorem category_filter_correct (file : DataFile) (c : String) :
    (get_media_by_category file c).1 =
      Resp.filtered (categoryFilter (load_media file) c) ∧
    (∀ kv : String × Record, kv ∈ categoryFilter (load_media file) c ↔
      kv ∈ load_media file ∧ pyLower kv.2.category = pyLower c) ∧
    ((∀ kv ∈ load_media file, pyLower kv.2.category ≠ pyLower c) →
      categoryFilter (load_media file) c = []) := by
  refine ⟨rfl, ?_, ?_⟩
  · intro kv
    simp [categoryFilter, List.mem_filter]
  · intro hall
    rw [List.eq_nil_iff_forall_not_mem]
    intro kv hkv
    rw [categoryFilter, List.mem_filter] at hkv
    exact hall kv hkv.1 (by simpa using hkv.2)

/-- C4, witness: filtering a one-Book Collection by the absent category "film"
yields the empty mapping. -/
theorem category_filter_correct_witness :
    categoryFilter
      (load_media (some [("k1", ⟨"Dune", "Frank Herbert", "1965", "Book"⟩)])) "film" = [] :=
  (category_filter_correct (some [("k1", ⟨"Dune", "Frank Herbert", "1965", "Book"⟩)])
    "film").2.2 (by decide)

/-- C5: on any starting Collection, creating a record from a request carrying
all four fields answers status 201 with the assigned id, and immediately
reading that id back through get_media_details yields a record equal, field
for field, to the supplied values. -/
theorem create_then_get_round_trip (file : DataFile)
    (nm au pd cat item_id : String) :
    (create_media file ⟨some nm, some au, some pd, some cat⟩ item_id).1 =
      Resp.created item_id ∧
    (get_media_details
        (create_media file ⟨some nm, some au, some pd, some cat⟩ item_id).2.1
        item_id).1 =
      Resp.details ⟨nm, au, pd, cat⟩ := by
  refine ⟨rfl, ?_⟩
  show (get_media_details
      (save_media (insertKey (load_media file) item_id ⟨nm, au, pd, cat⟩)) item_id).1 =
    Resp.details ⟨nm, au, pd, cat⟩
  unfold get_media_details
  rw [show load_media (save_media (insertKey (load_media file) item_id
      ⟨nm, au, pd, cat⟩)) = insertKey (load_media file) item_id ⟨nm, au, pd, cat⟩
    from rfl]
  rw [lookupKey_insertKey_self]

/-- C6: when the id is present in the Collection, delete_media answers status
200, a subsequent get_media_details on that id answers 404, and the Collection
that get_all_media then reports contains no entry keyed by that id. -/
theorem delete_then_get_not_found (file : DataFile) (item_id : String)
    (h : containsKey (load_media file) item_id = true) :
    (delete_media file item_id).1 = Resp.deleted ∧
    (get_media_details (delete_media file item_id).2.1 item_id).1 =
      Resp.errorNotFound ∧
    (get_all_media (delete_media file item_id).2.1).1 =
      Resp.allMedia (load_media (delete_media file item_id).2.1) ∧
    (∀ kv ∈ load_media (delete_media file item_id).2.1, kv.1 ≠ item_id) := by
  have hdel : delete_media file item_id =
      (Resp.deleted, save_media (eraseKey (load_media file) item_id), true) := by
    unfold delete_media
    rw [if_pos h]
  rw [hdel]
  refine ⟨rfl, ?_, rfl, ?_⟩
  · unfold get_media_details
    rw [show load_media (save_media (eraseKey (load_media file) item_id)) =
      eraseKey (load_media file) item_id from rfl]
    rw [lookupKey_eraseKey_self]
  · intro kv hkv
    exact not_mem_eraseKey_self (load_media file) item_id kv hkv

/-- C6, witness: deleting the only entry of a one-record Collection succeeds
and reading that id back answers 404. -/
theorem delete_then_get_not_found_witness :
    (delete_media (some [("k1", ⟨"Dune", "Frank Herbert", "1965", "Book"⟩)]) "k1").1 =
      Resp.deleted ∧
    (get_media_details
        (delete_media (some [("k1", ⟨"Dune", "Frank Herbert", "1965", "Book"⟩)]) "k1").2.1
        "k1").1 =
      Resp.errorNotFound :=
  ⟨(delete_then_get_not_found (some [("k1", ⟨"Dune", "Frank Herbert", "1965", "Book"⟩)])
      "k1" (by decide)).1,
   (delete_then_get_not_found (some [("k1", ⟨"Dune", "Frank Herbert", "1965", "Book"⟩)])
      "k1" (by decide)).2.1⟩

/-- C7: deleting an id absent from the Collection answers 404 and returns the
durable file unchanged without calling save_media — so the size of the Collection
is unaltered — and in particular deleting the same id twice in a row answers
404 the second time. -/
theorem delete_absent_not_found (file : DataFile) (item_id : String)
    (h : containsKey (load_media file) item_id = false) :
    delete_media file item_id = (Resp.errorNotFound, file, false) ∧
    (∀ (file2 : DataFile) (id2 : String),
      containsKey (load_media file2) id2 = true →
      (delete_media (delete_media file2 id2).2.1 id2).1 = Resp.errorNotFound) := by
  constructor
  · unfold delete_media
    rw [if_neg (by simp [h])]
  · intro file2 id2 h2
    have hdel : delete_media file2 id2 =
        (Resp.deleted, save_media (eraseKey (load_media file2) id2), true) := by
      unfold delete_media
      rw [if_pos h2]
    rw [hdel]
    show (delete_media (save_media (eraseKey (load_media file2) id2)) id2).1 =
      Resp.errorNotFound
    unfold delete_media
    rw [if_neg (by simp [containsKey_eraseKey_self (load_media file2) id2,
      show load_media (save_media (eraseKey (load_media file2) id2)) =
        eraseKey (load_media file2) id2 from rfl])]

/-- C7, witness: deleting an id from an absent media.json answers 404 and
leaves the durable state untouched. -/
theorem delete_absent_not_found_witness :
    delete_media none "k1" = (Resp.errorNotFound, none, false) :=
  (delete_absent_not_found none "k1" (by decide)).1

/-- C8: save_media followed by load_media is the identity on the Collection,
so after a create whose request carries all four fields and a restart that
reloads the store from what create persisted, get_all_media reports a
Collection containing the new id with exactly the stored field values. -/
theorem create_survives_restart (file : DataFile) (nm au pd cat item_id : String) :
    (∀ m : Media, load_media (save_media m) = m) ∧
    (item_id, (⟨nm, au, pd, cat⟩ : Record)) ∈
      load_media (create_media file ⟨some nm, some au, some pd, some cat⟩ item_id).2.1 ∧
    (get_all_media (create_media file ⟨some nm, some au, some pd, some cat⟩ item_id).2.1).1 =
      Resp.allMedia
        (load_media (create_media file ⟨some nm, some au, some pd, some cat⟩ item_id).2.1) := by
  refine ⟨fun m => rfl, ?_, rfl⟩
  show (item_id, (⟨nm, au, pd, cat⟩ : Record)) ∈
    load_media (save_media (insertKey (load_media file) item_id ⟨nm, au, pd, cat⟩))
  rw [show load_media (save_media (insertKey (load_media file) item_id
      ⟨nm, au, pd, cat⟩)) = insertKey (load_media file) item_id ⟨nm, au, pd, cat⟩
    from rfl]
  exact mem_insertKey_self (load_media file) item_id ⟨nm, au, pd, cat⟩

end LibraryInventory
